import Mathlib

/-!
Verification development for the crash-safe test-runner subsystem
(`src/gtest-test-runner.cc`, `include/gtest/internal/gtest-test-runner.h`).

The development shallowly embeds the test-runner code:

* the wire format (`SerializeString`, `SerializeTestPartResult`,
  `ExtractStringFromStream`, `ExtractTestPartResultFromStream`) over a
  deterministic byte-stream model of the pipe (a `List UInt8`; a
  `posix::Read` of `n` bytes returns `min n |stream|` bytes);
* `SafeRead` over an explicit oracle of read outcomes, so that the
  `EINTR` retry loop and partial/failed reads are visible;
* the Overseer loop `ReadAndInterpretStatusByte` as a fuel-indexed
  structural recursion over the stream (fuel `|stream| + 1` always
  suffices because every iteration consumes at least the framing byte);
* `ProcessOutcome`, `ReportTestPartResult`, `TearDown`, the two POSIX
  `AssumeRole` implementations, `DefaultTestRunnerFactory::Create` and
  `ParseInternalTestRunnerFlag`.

Reads of uninitialized memory in the C code (a short read into the
uninitialized `uint32_t size`, a partially filled string buffer, an
unrecognized result-type byte leaving `type` unset) are marked by an
explicit `uninit` result value rather than being given an arbitrary value.
-/

/-- `TestPartResult::Type` of the host framework: the three result kinds
the serializer distinguishes (`'S'`/`'N'`/`'F'`). -/
inductive TPRType where
  | kSuccess
  | kNonFatalFailure
  | kFatalFailure
deriving DecidableEq, Repr

/-- A `TestPartResult` value as the serializer sees it: the result type,
the (nullable, as a `const char*`) file name, the `int` line number and
the (nullable) message text.  Strings are byte lists; `none` models a
NULL pointer. -/
structure TestPartResult where
  type : TPRType
  file_name : Option (List UInt8)
  line_number : Int
  message : Option (List UInt8)
deriving DecidableEq, Repr

/-- `enum TestRunnerOutcome { TEST_IN_PROGRESS, TEST_DIED, TEST_EXITED }`. -/
inductive TestRunnerOutcome where
  | TEST_IN_PROGRESS
  | TEST_DIED
  | TEST_EXITED
deriving DecidableEq, Repr

/-- `enum Role { OVERSEE_TEST, EXECUTE_TEST }` of `TestRunner`. -/
inductive Role where
  | OVERSEE_TEST
  | EXECUTE_TEST
deriving DecidableEq, Repr

/-- The data members of `TestRunnerImpl` that the claims are about. -/
structure RunnerState where
  spawned : Bool
  status : Int
  outcome : TestRunnerOutcome
  read_fd : Int
  write_fd : Int
deriving DecidableEq, Repr

/-- The `TestRunnerImpl` constructor:
`spawned_(false), status_(-1), outcome_(TEST_IN_PROGRESS), read_fd_(-1), write_fd_(-1)`. -/
def initialRunnerState : RunnerState :=
  { spawned := false, status := -1, outcome := .TEST_IN_PROGRESS, read_fd := -1, write_fd := -1 }

/-- The status-byte constant `kTestRunnerTestPartResult = 'R'`. -/
def kTestRunnerTestPartResult : UInt8 := 82

/-- The status-byte constant `kTestRunnerExited = 'E'`. -/
def kTestRunnerExited : UInt8 := 69

/-- The status-byte constant `kTestRunnerInternalError = 'I'`. -/
def kTestRunnerInternalError : UInt8 := 73

/-- The four bytes of a 32-bit value laid out in little-endian order, as
`data->append(reinterpret_cast<char*>(&s), sizeof(s))` produces them on the
target platform. -/
def toLE32 (n : Nat) : List UInt8 :=
  [UInt8.ofNat (n % 256), UInt8.ofNat (n / 256 % 256),
   UInt8.ofNat (n / 65536 % 256), UInt8.ofNat (n / 16777216 % 256)]

/-- Reassembling an unsigned little-endian value from its bytes (the effect
of `SafeRead(read_fd, reinterpret_cast<char*>(&size), sizeof(size))` filling
a `uint32_t`). -/
def leToNat (bs : List UInt8) : Nat :=
  bs.foldr (fun b acc => b.toNat + 256 * acc) 0

/-- Reading four little-endian bytes back as a signed 32-bit `int` (two's
complement), as the `int line_number` is filled by `SafeRead`. -/
def leToInt32 (bs : List UInt8) : Int :=
  let n := leToNat bs
  if n < 2 ^ 31 then (n : Int) else (n : Int) - 2 ^ 32

/-- The four bytes `data->append(reinterpret_cast<char*>(&line_number), 4)`
appends for an `int` value (its two's-complement little-endian layout). -/
def int32ToLE (i : Int) : List UInt8 :=
  toLE32 ((i % (2 ^ 32 : Int)).toNat)

/-- The bytes a C string pointer yields up to its terminator: both
`strlen(str)` and `std::string::append(const char*)` stop at the first
NUL byte. -/
def cstrBytes (s : List UInt8) : List UInt8 :=
  s.takeWhile (fun b => b ≠ 0)

/-- `SerializeString(const char* str, string* data)`: appends
`int32_t s = strlen(str)` as four raw bytes, then the string's bytes.
There is no presence byte; the argument must be a valid (non-NULL)
C string. -/
def SerializeString (str : List UInt8) : List UInt8 :=
  toLE32 (cstrBytes str).length ++ cstrBytes str

/-- The result-type indicator byte appended by `SerializeTestPartResult`:
`"S"`, `"N"` or `"F"`. -/
def typeByte : TPRType → List UInt8
  | .kSuccess => [83]
  | .kNonFatalFailure => [78]
  | .kFatalFailure => [70]

/-- `SerializeTestPartResult(const TestPartResult&, string*)`: the type
indicator byte, the file name via `SerializeString`, the four raw bytes of
`int line_number`, then the message via `SerializeString`.  When
`file_name()` or `message()` is NULL the call runs `strlen(NULL)`, which
has no defined result; the model returns `none` there. -/
def SerializeTestPartResult (r : TestPartResult) : Option (List UInt8) :=
  match r.file_name, r.message with
  | some fn, some msg =>
      some (typeByte r.type ++ SerializeString fn ++ int32ToLE r.line_number ++ SerializeString msg)
  | _, _ => none

/-- `posix::Read(read_fd, output, n)` on the deterministic pipe model: the
stream is the list of bytes still buffered, the call returns
`min n |stream|` bytes.  `SafeRead` issues exactly one such read and its
retry loop then exits (the return value is never `-1` here), so on this
model `SafeRead(fd, buf, n)` returns the triple
(bytes-read count, bytes read, remaining stream). -/
def SafeReadStream (s : List UInt8) (n : Nat) : Nat × List UInt8 × List UInt8 :=
  (min n s.length, s.take n, s.drop n)

/-- Result of one of the `Extract*FromStream` functions: the C functions
return an `int` (`ret ≤ 0` is end-of-stream/error, positive is success)
and fill an output parameter; `rest` is the part of the stream they have
not consumed.  `uninit` marks executions whose outcome depends on
uninitialized memory. -/
inductive ExtractRes (α : Type) where
  | res (ret : Int) (val : Option α) (rest : List UInt8)
  | uninit
deriving DecidableEq, Repr

/-- `ExtractStringFromStream(int read_fd, string* data)`: reads a
`uint32_t size` (four raw bytes), then `size` bytes into a fresh buffer,
NUL-terminates the buffer and assigns it to `data` (stopping at the first
NUL byte it contains).  Returns `bytes_read_size` or `bytes_read_string`
when either is `≤ 0`, otherwise their sum.  A short read of `size` leaves
the `uint32_t` partially uninitialized, and a short read of the buffer
leaves its tail uninitialized: both are `uninit`. -/
def ExtractStringFromStream (s : List UInt8) : ExtractRes (List UInt8) :=
  let r1 := SafeReadStream s 4
  if r1.1 = 0 then .res 0 none r1.2.2
  else if r1.1 < 4 then .uninit
  else
    let size := leToNat r1.2.1
    let r2 := SafeReadStream r1.2.2 size
    if r2.1 = 0 then .res 0 none r2.2.2
    else if r2.1 < size then .uninit
    else .res (4 + (size : Int)) (some (cstrBytes r2.2.1)) r2.2.2

/-- `ExtractTestPartResultFromStream(int read_fd, TestPartResult** result)`:
reads the result-type byte (`'S'`/`'N'`/`'F'`; any other value leaves the
local `type` uninitialized), the file name, four bytes into
`int line_number = 0` (a short successful read leaves the untouched high
bytes zero), and the message; each `≤ 0` intermediate return is forwarded.
On success it builds the `TestPartResult` and returns `1`. -/
def ExtractTestPartResultFromStream (s : List UInt8) : ExtractRes TestPartResult :=
  let r1 := SafeReadStream s 1
  if r1.1 = 0 then .res 0 none r1.2.2
  else
    let type? : Option TPRType :=
      if r1.2.1 = [83] then some .kSuccess
      else if r1.2.1 = [78] then some .kNonFatalFailure
      else if r1.2.1 = [70] then some .kFatalFailure
      else none
    match ExtractStringFromStream r1.2.2 with
    | .uninit => .uninit
    | .res retF fn? s2 =>
      if retF ≤ 0 then .res retF none s2
      else
        let r3 := SafeReadStream s2 4
        if r3.1 = 0 then .res 0 none r3.2.2
        else
          let line_number : Int := leToInt32 (r3.2.1 ++ List.replicate (4 - r3.1) 0)
          match ExtractStringFromStream r3.2.2 with
          | .uninit => .uninit
          | .res retM msg? s4 =>
            if retM ≤ 0 then .res retM none s4
            else
              match type?, fn?, msg? with
              | some ty, some fn, some msg =>
                  .res 1 (some { type := ty, file_name := some fn,
                                 line_number := line_number, message := some msg }) s4
              | _, _, _ => .uninit

/-- Encoding a `TestPartResult` with `SerializeTestPartResult` and decoding
the produced bytes with `ExtractTestPartResultFromStream` (the successful
decode is the one whose return value is positive). -/
def roundTrip (r : TestPartResult) : Option TestPartResult :=
  match SerializeTestPartResult r with
  | none => none
  | some bs =>
    match ExtractTestPartResultFromStream bs with
    | .res ret val _ => if ret > 0 then val else none
    | .uninit => none

/-- The outcome of one `posix::Read` call as `SafeRead`'s loop observes it:
either a count of bytes read (`0` means end-of-stream, or a zero-byte
request), or `-1` with `errno == EINTR`, or `-1` with any other `errno`. -/
inductive ReadOutcome where
  | bytes (k : Nat)
  | intr
  | fail
deriving DecidableEq, Repr

/-- The body of `SafeRead`'s do-while loop, one oracle event per
`posix::Read` call.  `total` is `total_bytes_read`, `remaining` is the
current `bytes_to_read`.  A result of `none` means the oracle ran out of
events while the loop still wanted to read (the call would block).
The loop repeats only when the read returned `-1` with `errno == EINTR`;
any read that returns `≥ 0` bytes, and any other failure, exits it. -/
def SafeReadGo (total : Int) (remaining : Nat) : List ReadOutcome → Option Int
  | [] => none
  | .bytes k :: _ =>
      -- if (bytes_read > 0) { total_bytes_read += bytes_read; ... };
      -- the loop condition (bytes_read == -1 && errno == EINTR) is false.
      some (if k > 0 then total + k else total)
  | .intr :: rest => SafeReadGo total remaining rest
  | .fail :: _ => some total

/-- `SafeRead(int read_fd, char* output, int bytes_to_read)` over the read
oracle: `total_bytes_read = 0` initially, then the retry loop. -/
def SafeRead (events : List ReadOutcome) (bytes_to_read : Nat) : Option Int :=
  SafeReadGo 0 bytes_to_read events

/-- How one execution of the Overseer loop in
`ReadAndInterpretStatusByte` ended. -/
inductive InterpTerm where
  | cleanEos
  | exitedByte
  | internalError
  | unexpectedByte (b : UInt8)
  | readUninit
  | fuelOut
deriving DecidableEq, Repr

/-- Observable behaviour of one `ReadAndInterpretStatusByte` execution:
how the loop ended, the `set_outcome` calls it made in order, the
`TestPartResult`s it forwarded to the result reporter, and every byte
sequence it wrote to the channel (the source contains no write to the
channel anywhere in this loop). -/
structure InterpResult where
  term : InterpTerm
  setsOutcome : List TestRunnerOutcome
  reported : List TestPartResult
  chanWrites : List (List UInt8)
deriving DecidableEq, Repr

/-- One-iteration-per-recursive-call embedding of the Overseer loop of
`ReadAndInterpretStatusByte`, with explicit fuel (each iteration consumes
at least the framing byte, so fuel `|stream| + 1` always suffices;
`fuelOut` is a model artifact that adequate fuel never produces).
An empty stream is `bytes_read == 0`: `set_outcome(TEST_DIED)` and stop.
Flag `'R'` decodes a part result, forwards it only when the decode
returned a positive value, and continues the loop either way.
Flag `'E'` is `set_outcome(TEST_EXITED)` and stop.  Flag `'I'` calls
`FailFromInternalError`, which does not return.  Any other byte logs
`GTEST_LOG_(FATAL)` (which aborts the process). -/
def interpGo : Nat → List UInt8 → InterpResult
  | 0, _ => { term := .fuelOut, setsOutcome := [], reported := [], chanWrites := [] }
  | _ + 1, [] =>
      { term := .cleanEos, setsOutcome := [.TEST_DIED], reported := [], chanWrites := [] }
  | fuel + 1, b :: s =>
      if b = kTestRunnerTestPartResult then
        match ExtractTestPartResultFromStream s with
        | .uninit => { term := .readUninit, setsOutcome := [], reported := [], chanWrites := [] }
        | .res ret val rest =>
            let r := interpGo fuel rest
            { term := r.term, setsOutcome := r.setsOutcome,
              reported := (if ret > 0 then val.toList else []) ++ r.reported,
              chanWrites := r.chanWrites }
      else if b = kTestRunnerExited then
        { term := .exitedByte, setsOutcome := [.TEST_EXITED], reported := [], chanWrites := [] }
      else if b = kTestRunnerInternalError then
        { term := .internalError, setsOutcome := [], reported := [], chanWrites := [] }
      else
        { term := .unexpectedByte b, setsOutcome := [], reported := [], chanWrites := [] }

/-- `TestRunnerImpl::ReadAndInterpretStatusByte`, run on the deterministic
stream model: the loop over the whole child-to-parent stream. -/
def ReadAndInterpretStatusByte (s : List UInt8) : InterpResult :=
  interpGo (s.length + 1) s

/-- Observable behaviour of `TestRunnerImpl::ProcessOutcome`: its return
value, the `GTEST_LOG_(FATAL)` messages it emits (a FATAL log aborts the
process, per gtest-port), and the test part results it synthesizes and
reports for the supervised unit (the source reports none). -/
structure ProcessOutcomeResult where
  retVal : Bool
  fatalLogs : List String
  synthesized : List TestPartResult
deriving Repr

/-- `TestRunnerImpl::ProcessOutcome()`: returns `false` when not spawned;
on `TEST_EXITED` everything is fine; on `TEST_DIED` it executes
`GTEST_LOG_(FATAL) << "Child process died"`; on any other outcome it
executes `GTEST_LOG_(FATAL) << "Unexpected child process outcome"`. -/
def ProcessOutcome (spawned : Bool) (outcome : TestRunnerOutcome) : ProcessOutcomeResult :=
  if !spawned then { retVal := false, fatalLogs := [], synthesized := [] }
  else
    match outcome with
    | .TEST_EXITED => { retVal := true, fatalLogs := [], synthesized := [] }
    | .TEST_DIED => { retVal := true, fatalLogs := ["Child process died"], synthesized := [] }
    | .TEST_IN_PROGRESS =>
        { retVal := true, fatalLogs := ["Unexpected child process outcome"], synthesized := [] }

/-- One operation of the Executor on the channel. -/
inductive ChanOp where
  | read (n : Nat)
  | write (data : List UInt8)
deriving DecidableEq, Repr

/-- Whether a channel operation is a read. -/
def ChanOp.isRead : ChanOp → Bool
  | .read _ => true
  | .write _ => false

/-- `TestRunnerImpl::ReportTestPartResult(const TestPartResult&)`: checks
`write_fd() != -1` (`TestRunnerAbort` otherwise, modelled as `none`),
builds `"R"` followed by the serialized part result, and performs a single
`posix::Write` of that buffer.  It then returns: the source performs no
further channel operation, in particular no read. -/
def ReportTestPartResultOps (write_fd : Int) (r : TestPartResult) : Option (List ChanOp) :=
  if write_fd = -1 then none
  else
    match SerializeTestPartResult r with
    | none => none
    | some payload => some [ChanOp.write (kTestRunnerTestPartResult :: payload)]

/-- Observable behaviour of a `TearDown` implementation: the byte
sequences written to the channel, and `some c` when it terminates the
process with exit status `c` (`none` when it returns to its caller). -/
structure TearDownResult where
  writes : List (List UInt8)
  exitStatus : Option Nat
deriving DecidableEq, Repr

/-- `TestRunnerImpl::TearDown()`: `posix::Write(write_fd(), "E", 1)` and
return. -/
def TestRunnerImplTearDown : TearDownResult :=
  { writes := [[kTestRunnerExited]], exitStatus := none }

/-- `NoExecTestRunner::TearDown()`: `TestRunnerImpl::TearDown()` then
`exit(0)`. -/
def NoExecTestRunnerTearDown : TearDownResult :=
  { writes := TestRunnerImplTearDown.writes, exitStatus := some 0 }

/-- `ExecTestRunner` declares no `TearDown` override, so it inherits
`TestRunnerImpl::TearDown` (via `ForkingTestRunner`). -/
def ExecTestRunnerTearDown : TearDownResult :=
  TestRunnerImplTearDown

/-- `WindowsTestRunner` declares no `TearDown` override either. -/
def WindowsTestRunnerTearDown : TearDownResult :=
  TestRunnerImplTearDown

/-- `InternalTestRunnerFlag`: the object `ParseInternalTestRunnerFlag`
builds, carrying the inherited channel's write descriptor. -/
structure InternalTestRunnerFlag where
  write_fd : Int
deriving DecidableEq, Repr

/-- The OS-dependent inputs of a fork-based `AssumeRole`: the two
descriptors `pipe(pipe_fd)` produced (`pipe_fd[0]` read end, `pipe_fd[1]`
write end), and whether `fork()` returned `0` (this process is the
child). -/
structure SpawnEnv where
  pipeRead : Int
  pipeWrite : Int
  inChild : Bool
deriving DecidableEq, Repr

/-- Result of an `AssumeRole` call: the role returned, the runner state on
return, how many pipes were created and child processes spawned during the
call, and whether this process still holds the pipe's read/write ends
open on return. -/
structure AssumeRoleResult where
  role : Role
  state : RunnerState
  pipesCreated : Nat
  childrenSpawned : Nat
  readEndOpen : Bool
  writeEndOpen : Bool
deriving DecidableEq, Repr

/-- `NoExecTestRunner::AssumeRole()`: unconditionally `pipe(pipe_fd)` then
`fork()` — the function never consults the internal test-runner flag (the
`flag` argument is unused, mirroring the source).  In the child it closes
`pipe_fd[0]`, sets `write_fd` to `pipe_fd[1]` and returns `EXECUTE_TEST`;
in the parent it closes `pipe_fd[1]`, sets `read_fd` to `pipe_fd[0]`,
marks the runner spawned and returns `OVERSEE_TEST`. -/
def NoExecAssumeRole (_flag : Option InternalTestRunnerFlag) (env : SpawnEnv) : AssumeRoleResult :=
  if env.inChild then
    { role := .EXECUTE_TEST,
      state := { initialRunnerState with write_fd := env.pipeWrite },
      pipesCreated := 1, childrenSpawned := 1,
      readEndOpen := false, writeEndOpen := true }
  else
    { role := .OVERSEE_TEST,
      state := { initialRunnerState with read_fd := env.pipeRead, spawned := true },
      pipesCreated := 1, childrenSpawned := 1,
      readEndOpen := true, writeEndOpen := false }

/-- `ExecTestRunner::AssumeRole()`: when the internal test-runner flag is
present it sets `write_fd` from the flag and returns `EXECUTE_TEST`
immediately — no pipe, no child.  Otherwise it creates the pipe, spawns
the re-executing child via `ExecTestRunnerSpawnChild` (whose child branch
closes `pipe_fd[0]` and replaces the program image, never returning here),
closes `pipe_fd[1]`, sets `read_fd`, marks the runner spawned and returns
`OVERSEE_TEST` in the parent. -/
def ExecAssumeRole (flag : Option InternalTestRunnerFlag) (env : SpawnEnv) : AssumeRoleResult :=
  match flag with
  | some f =>
      { role := .EXECUTE_TEST,
        state := { initialRunnerState with write_fd := f.write_fd },
        pipesCreated := 0, childrenSpawned := 0,
        readEndOpen := false, writeEndOpen := false }
  | none =>
      { role := .OVERSEE_TEST,
        state := { initialRunnerState with read_fd := env.pipeRead, spawned := true },
        pipesCreated := 1, childrenSpawned := 1,
        readEndOpen := true, writeEndOpen := false }

/-- The concrete runner classes `DefaultTestRunnerFactory::Create` can
instantiate on POSIX. -/
inductive RunnerKind where
  | ExecTestRunner
  | NoExecTestRunner
deriving DecidableEq, Repr

/-- Result of `DefaultTestRunnerFactory::Create`: a runner was built
(returning `true`), or the function returned `false` with no diagnostic
(the source's invalid-style branch is `return false` under a
`TODO (dmeister): Error handling here` comment), or an abort carrying a
message (no branch of the source does this). -/
inductive CreateResult where
  | created (k : RunnerKind)
  | failedSilently
  | abortedWith (msg : List Char)
deriving DecidableEq, Repr

/-- `DefaultTestRunnerFactory::Create(TestRunner** test)` (POSIX branch):
style `"threadsafe"` builds an `ExecTestRunner`, style `"fast"` builds a
`NoExecTestRunner`, and any other `--gtest_test_runner_style` value makes
the function return `false` without emitting anything. -/
def DefaultTestRunnerFactoryCreate (style : String) : CreateResult :=
  if style = "threadsafe" then .created .ExecTestRunner
  else if style = "fast" then .created .NoExecTestRunner
  else .failedSilently

/-- Modelled from the spec: `SplitString(str, delimiter, &fields)` lives in
gtest's core (`gtest.cc`), outside this subsystem's sources.  It splits at
every occurrence of the delimiter, keeping empty segments, so a string
with `k` delimiters yields `k + 1` fields. -/
def splitOnChar (delim : Char) : List Char → List (List Char)
  | [] => [[]]
  | c :: cs =>
    match splitOnChar delim cs with
    | [] => [[]]
    | f :: rest => if c = delim then [] :: f :: rest else (c :: f) :: rest

/-- Modelled from the spec: `ParseNaturalNumber` lives in gtest's core
(`gtest-internal-inl.h`), outside this subsystem's sources.  It accepts a
non-empty all-digit decimal field that fits the target `int` type and
rejects anything else ("an unparseable descriptor number"). -/
def ParseNaturalNumber (cs : List Char) : Option Int :=
  if cs = [] then none
  else if cs.all (fun c => c.isDigit) then
    let n := cs.foldl (fun (acc : Nat) c => acc * 10 + (c.toNat - 48)) 0
    if n ≤ 2 ^ 31 - 1 then some (n : Int) else none
  else none

/-- Result of `ParseInternalTestRunnerFlag()`: `noFlag` is the NULL return
for an unset flag, `flag` the successfully parsed object, `aborted` a
`TestRunnerAbort` with its diagnostic message. -/
inductive ParseFlagResult where
  | noFlag
  | flag (write_fd : Int)
  | aborted (msg : List Char)
deriving DecidableEq, Repr

/-- The diagnostic `ParseInternalTestRunnerFlag` aborts with:
`"Bad --gtest_internal_test_runner flag: %s"` formatted with the flag's
value. -/
def badFlagMessage (v : List Char) : List Char :=
  "Bad --gtest_internal_test_runner flag: ".toList ++ v

/-- `ParseInternalTestRunnerFlag()` (POSIX branch): an empty
`--gtest_internal_test_runner` value returns NULL; otherwise the value is
split on `'|'` and must consist of exactly two fields whose second parses
as a natural number (the write descriptor); any violation calls
`TestRunnerAbort` with the bad-flag diagnostic. -/
def ParseInternalTestRunnerFlag (v : List Char) : ParseFlagResult :=
  if v = [] then .noFlag
  else
    let fields := splitOnChar '|' v
    if h : fields.length = 2 then
      match ParseNaturalNumber (fields.get ⟨1, by omega⟩) with
      | some write_fd => .flag write_fd
      | none => .aborted (badFlagMessage v)
    else .aborted (badFlagMessage v)

theorem length_toLE32 (n : Nat) : (toLE32 n).length = 4 := by
  simp [toLE32]

theorem leToNat_toLE32 (n : Nat) (h : n < 2 ^ 32) : leToNat (toLE32 n) = n := by
  have h1 : (UInt8.ofNat (n % 256)).toNat = n % 256 :=
    UInt8.toNat_ofNat_of_lt (by simp only [UInt8.size]; omega)
  have h2 : (UInt8.ofNat (n / 256 % 256)).toNat = n / 256 % 256 :=
    UInt8.toNat_ofNat_of_lt (by simp only [UInt8.size]; omega)
  have h3 : (UInt8.ofNat (n / 65536 % 256)).toNat = n / 65536 % 256 :=
    UInt8.toNat_ofNat_of_lt (by simp only [UInt8.size]; omega)
  have h4 : (UInt8.ofNat (n / 16777216 % 256)).toNat = n / 16777216 % 256 :=
    UInt8.toNat_ofNat_of_lt (by simp only [UInt8.size]; omega)
  simp only [leToNat, toLE32, List.foldr_cons, List.foldr_nil, h1, h2, h3, h4]
  omega

theorem leToInt32_int32ToLE (i : Int) (hlo : -(2 ^ 31) ≤ i) (hhi : i < 2 ^ 31) :
    leToInt32 (int32ToLE i) = i := by
  unfold leToInt32 int32ToLE
  have hmod : (0 : Int) ≤ i % (2 ^ 32 : Int) ∧ i % (2 ^ 32 : Int) < 2 ^ 32 := by
    constructor
    · exact Int.emod_nonneg i (by norm_num)
    · exact Int.emod_lt_of_pos i (by norm_num)
  have htn : ((i % (2 ^ 32 : Int)).toNat : Int) = i % (2 ^ 32 : Int) :=
    Int.toNat_of_nonneg hmod.1
  rw [leToNat_toLE32 _ (by omega)]
  rcases le_or_lt 0 i with hpos | hneg
  · have : i % (2 ^ 32 : Int) = i := Int.emod_eq_of_lt hpos (by omega)
    rw [if_pos (by omega)]
    omega
  · have : i % (2 ^ 32 : Int) = i + 2 ^ 32 := by
      have := Int.emod_emod_of_dvd i (dvd_refl (2 ^ 32 : Int))
      omega
    rw [if_neg (by omega)]
    omega

theorem cstrBytes_eq_self {s : List UInt8} (h : ∀ b ∈ s, b ≠ 0) : cstrBytes s = s := by
  unfold cstrBytes
  rw [List.takeWhile_eq_self_iff]
  intro b hb
  simpa using h b hb

theorem length_int32ToLE (i : Int) : (int32ToLE i).length = 4 := by
  simp [int32ToLE, toLE32]

theorem extractString_roundtrip (str rest : List UInt8) (hne : str ≠ [])
    (hnul : ∀ b ∈ str, b ≠ 0) (hlen : str.length < 2 ^ 32) :
    ExtractStringFromStream (SerializeString str ++ rest) =
      .res (4 + (str.length : Int)) (some str) rest := by
  have hcs : cstrBytes str = str := cstrBytes_eq_self hnul
  have hlp : str.length ≠ 0 := by simpa [List.length_eq_zero] using hne
  unfold ExtractStringFromStream
  simp only [SerializeString, hcs, List.append_assoc, SafeReadStream]
  rw [List.take_left' (length_toLE32 _), List.drop_left' (length_toLE32 _)]
  rw [leToNat_toLE32 _ hlen]
  rw [List.take_left, List.drop_left]
  simp only [List.length_append, length_toLE32]
  have h4 : min 4 (4 + (str.length + rest.length)) = 4 := by omega
  have hm : min str.length (str.length + rest.length) = str.length := by omega
  rw [h4, hm]
  simp [hlp, hcs]

theorem extract_serialize_roundtrip (ty : TPRType) (fn msg extra : List UInt8) (line : Int)
    (hfn : fn ≠ []) (hfnN : ∀ b ∈ fn, b ≠ 0) (hfnL : fn.length < 2 ^ 32)
    (hmsg : msg ≠ []) (hmsgN : ∀ b ∈ msg, b ≠ 0) (hmsgL : msg.length < 2 ^ 32)
    (hlo : -(2 ^ 31) ≤ line) (hhi : line < 2 ^ 31) :
    ExtractTestPartResultFromStream
        ((typeByte ty ++ SerializeString fn ++ int32ToLE line ++ SerializeString msg) ++ extra) =
      .res 1 (some { type := ty, file_name := some fn, line_number := line,
                     message := some msg }) extra := by
  have hfnR := extractString_roundtrip fn (int32ToLE line ++ (SerializeString msg ++ extra))
    hfn hfnN hfnL
  have hmsgR := extractString_roundtrip msg extra hmsg hmsgN hmsgL
  have hretF : ¬ ((4 : Int) + (fn.length : Int) ≤ 0) := by omega
  have hretM : ¬ ((4 : Int) + (msg.length : Int) ≤ 0) := by omega
  have hline : leToInt32 (int32ToLE line ++ List.replicate (4 - 4) 0) = line := by
    simpa using leToInt32_int32ToLE line hlo hhi
  cases ty <;>
  · unfold ExtractTestPartResultFromStream
    simp only [typeByte, List.cons_append, List.nil_append, SafeReadStream, List.length_cons,
      List.take_succ_cons, List.take_zero, List.drop_succ_cons, List.drop_zero,
      List.append_assoc]
    rw [hfnR]
    simp only [hretF, if_false, SafeReadStream]
    rw [List.take_left' (length_int32ToLE _), List.drop_left' (length_int32ToLE _)]
    simp only [List.length_append, length_int32ToLE]
    have h4 : min 4 (4 + ((SerializeString msg).length + extra.length)) = 4 := by omega
    rw [h4, hline, hmsgR]
    simp [hretM]

theorem extractString_rest_le {s : List UInt8} {ret : Int} {val : Option (List UInt8)}
    {rest : List UInt8} (h : ExtractStringFromStream s = .res ret val rest) :
    rest.length ≤ s.length := by
  unfold ExtractStringFromStream SafeReadStream at h
  simp only at h
  split at h
  · cases h
    simp [List.length_drop]
  · split at h
    · simp at h
    · split at h
      · cases h
        simp only [List.length_drop]
        omega
      · split at h
        · simp at h
        · cases h
          simp only [List.length_drop]
          omega

theorem extract_rest_le {s : List UInt8} {ret : Int} {val : Option TestPartResult}
    {rest : List UInt8} (h : ExtractTestPartResultFromStream s = .res ret val rest) :
    rest.length ≤ s.length := by
  unfold ExtractTestPartResultFromStream SafeReadStream at h
  simp only at h
  split at h
  · cases h
    simp [List.length_drop]
  · split at h
    · simp at h
    · rename_i retF fn? s2 hE1
      have hs2 := extractString_rest_le hE1
      simp only [List.length_drop] at hs2
      split at h
      · cases h
        omega
      · split at h
        · cases h
          simp only [List.length_drop]
          omega
        · split at h
          · simp at h
          · rename_i retM msg? s4 hE2
            have hs4 := extractString_rest_le hE2
            simp only [List.length_drop] at hs4
            split at h
            · cases h
              omega
            · split at h
              all_goals first
                | (cases h; omega)
                | simp at h

theorem interpGo_fuel_congr :
    ∀ (f f' : Nat) (s : List UInt8), s.length < f → s.length < f' →
      interpGo f s = interpGo f' s := by
  intro f
  induction f with
  | zero =>
    intro f' s h _
    omega
  | succ n ih =>
    intro f' s h h'
    match f', s with
    | 0, _ => omega
    | m + 1, [] => rfl
    | m + 1, b :: s' =>
      simp only [interpGo]
      by_cases hb : b = kTestRunnerTestPartResult
      · rw [if_pos hb, if_pos hb]
        cases hE : ExtractTestPartResultFromStream s' with
        | uninit => rfl
        | res ret val rest =>
          have hle := extract_rest_le hE
          simp only [List.length_cons] at h h'
          dsimp only
          rw [ih m rest (by omega) (by omega)]
      · rw [if_neg hb, if_neg hb]

theorem interpGo_chanWrites_nil : ∀ (f : Nat) (s : List UInt8), (interpGo f s).chanWrites = [] := by
  intro f
  induction f with
  | zero => intro s; rfl
  | succ n ih =>
    intro s
    match s with
    | [] => rfl
    | b :: s' =>
      simp only [interpGo]
      by_cases hb : b = kTestRunnerTestPartResult
      · rw [if_pos hb]
        cases hE : ExtractTestPartResultFromStream s' with
        | uninit => rfl
        | res ret val rest => exact ih rest
      · rw [if_neg hb]
        by_cases hbe : b = kTestRunnerExited
        · rw [if_pos hbe]
        · rw [if_neg hbe]
          by_cases hbi : b = kTestRunnerInternalError
          · rw [if_pos hbi]
          · rw [if_neg hbi]

theorem interpGo_outcome_inv :
    ∀ (f : Nat) (s : List UInt8),
      ((interpGo f s).term = .exitedByte → (interpGo f s).setsOutcome = [.TEST_EXITED]) ∧
      ((interpGo f s).term = .cleanEos → (interpGo f s).setsOutcome = [.TEST_DIED]) ∧
      ((interpGo f s).term = .exitedByte ∨ (interpGo f s).term = .cleanEos ∨
        (interpGo f s).setsOutcome = []) := by
  intro f
  induction f with
  | zero =>
    intro s
    refine ⟨?_, ?_, ?_⟩ <;> simp [interpGo]
  | succ n ih =>
    intro s
    match s with
    | [] => refine ⟨?_, ?_, ?_⟩ <;> simp [interpGo]
    | b :: s' =>
      simp only [interpGo]
      by_cases hb : b = kTestRunnerTestPartResult
      · rw [if_pos hb]
        cases hE : ExtractTestPartResultFromStream s' with
        | uninit => refine ⟨?_, ?_, ?_⟩ <;> simp
        | res ret val rest =>
          dsimp only
          exact ih rest
      · rw [if_neg hb]
        by_cases hbe : b = kTestRunnerExited
        · rw [if_pos hbe]
          refine ⟨?_, ?_, ?_⟩ <;> simp
        · rw [if_neg hbe]
          by_cases hbi : b = kTestRunnerInternalError
          · rw [if_pos hbi]
            refine ⟨?_, ?_, ?_⟩ <;> simp
          · rw [if_neg hbi]
            refine ⟨?_, ?_, ?_⟩ <;> simp

theorem safeReadGo_intr_skip (m : Nat) (total : Int) (rem : Nat) (tail : List ReadOutcome) :
    SafeReadGo total rem (List.replicate m .intr ++ tail) = SafeReadGo total rem tail := by
  induction m with
  | zero => rfl
  | succ j ih => simpa [List.replicate_succ, SafeReadGo] using ih

theorem safeReadGo_nonneg (events : List ReadOutcome) (total : Int) (rem : Nat) (h : 0 ≤ total) :
    SafeReadGo total rem events ≠ some (-1) ∧ 0 ≤ (SafeReadGo total rem events).getD 0 := by
  induction events generalizing total with
  | nil => simp [SafeReadGo]
  | cons e tail ih =>
    cases e with
    | bytes k =>
      by_cases hk : k > 0 <;>
        simp only [SafeReadGo, hk, if_true, if_false, ne_eq, Option.some_inj, Option.getD_some] <;>
        constructor <;> omega
    | intr => simpa only [SafeReadGo] using ih total h
    | fail =>
      simp only [SafeReadGo, ne_eq, Option.some_inj, Option.getD_some]
      constructor <;> omega

/-- C1: the claim states that for a supervised unit whose Outcome is Died,
`ProcessOutcome` synthesizes exactly one fatal assertion failure attributed
to that unit and the run continues.  Evaluating the embedded
`TestRunnerImpl::ProcessOutcome` at the failing input (a spawned runner
whose outcome is `TEST_DIED`) shows what the code actually does: it
executes `GTEST_LOG_(FATAL) << "Child process died"` — a FATAL log aborts
the whole process per gtest-port — and synthesizes no test part result at
all, so the run is terminated rather than continued with one failed
assertion. -/
theorem c1_processOutcome_died_aborts_run :
    ProcessOutcome true .TEST_DIED =
      { retVal := true, fatalLogs := ["Child process died"], synthesized := [] } := rfl

/-- C4: in the Overseer loop, reading the framing byte `'E'` before the
stream closes makes the terminal call `set_outcome(TEST_EXITED)`, a clean
end-of-stream (zero-byte read) without a prior `'E'` makes it
`set_outcome(TEST_DIED)`; the outcome field starts at `TEST_IN_PROGRESS`
(the `TestRunnerImpl` constructor) and exactly one `set_outcome` call is
made if and only if the loop ends in one of these two ways. -/
theorem c4_outcome_determinism (s : List UInt8) :
    initialRunnerState.outcome = .TEST_IN_PROGRESS ∧
    ((ReadAndInterpretStatusByte s).term = .exitedByte →
      (ReadAndInterpretStatusByte s).setsOutcome = [.TEST_EXITED]) ∧
    ((ReadAndInterpretStatusByte s).term = .cleanEos →
      (ReadAndInterpretStatusByte s).setsOutcome = [.TEST_DIED]) ∧
    (((ReadAndInterpretStatusByte s).term = .exitedByte ∨
        (ReadAndInterpretStatusByte s).term = .cleanEos) ↔
      (ReadAndInterpretStatusByte s).setsOutcome.length = 1) := by
  obtain ⟨h1, h2, h3⟩ := interpGo_outcome_inv (s.length + 1) s
  simp only [ReadAndInterpretStatusByte] at *
  refine ⟨rfl, h1, h2, ?_⟩
  constructor
  · rintro (ht | ht)
    · rw [h1 ht]
      rfl
    · rw [h2 ht]
      rfl
  · intro hl
    rcases h3 with ht | ht | hs
    · exact Or.inl ht
    · exact Or.inr ht
    · rw [hs] at hl
      simp at hl

/-- C4 witness: the determinism theorem applied to the concrete streams
`['E']` and `[]`. -/
theorem c4_outcome_determinism_witness :
    (ReadAndInterpretStatusByte [69]).setsOutcome = [.TEST_EXITED] ∧
    (ReadAndInterpretStatusByte []).setsOutcome = [.TEST_DIED] :=
  ⟨(c4_outcome_determinism [69]).2.1 (by decide),
   (c4_outcome_determinism []).2.2.1 (by decide)⟩

/-- C5 counterexample: the claim states that end-of-stream in the middle of
a message (after the framing byte, before all fields) is a fatal protocol
violation.  On the concrete stream `['R']` — a framing byte followed by
end-of-stream — the Overseer loop instead silently skips the failed decode,
loops, and takes the ordinary clean-close branch: the outcome is the
regular `TEST_DIED` terminal, no fatal diagnostic of any kind. -/
theorem c5_counterexample :
    ReadAndInterpretStatusByte [82] =
      { term := .cleanEos, setsOutcome := [.TEST_DIED], reported := [], chanWrites := [] } := by
  decide

/-- C5 (amended): (a) end-of-stream before any framing byte is not an error
but the Died terminal condition; (b) a message decode that returns a
nonpositive value — which is what end-of-stream mid-message produces — is
NOT fatal: the partial message is dropped without a report and the loop
simply continues on the remaining stream (so a stream ending mid-message
terminates through the ordinary Died branch); (c) an unrecognized framing
byte is a fatal protocol violation (`GTEST_LOG_(FATAL)`), with no outcome
set. -/
theorem c5_amended :
    (ReadAndInterpretStatusByte [] =
      { term := .cleanEos, setsOutcome := [.TEST_DIED], reported := [], chanWrites := [] }) ∧
    (∀ (s : List UInt8) (ret : Int) (val : Option TestPartResult) (rest : List UInt8),
      ExtractTestPartResultFromStream s = .res ret val rest → ret ≤ 0 →
      ReadAndInterpretStatusByte (kTestRunnerTestPartResult :: s) =
        ReadAndInterpretStatusByte rest) ∧
    (∀ (b : UInt8) (s : List UInt8), b ≠ kTestRunnerTestPartResult → b ≠ kTestRunnerExited →
      b ≠ kTestRunnerInternalError →
      (ReadAndInterpretStatusByte (b :: s)).term = .unexpectedByte b ∧
      (ReadAndInterpretStatusByte (b :: s)).setsOutcome = []) := by
  refine ⟨rfl, ?_, ?_⟩
  · intro s ret val rest hE hle
    have hrle := extract_rest_le hE
    simp only [ReadAndInterpretStatusByte, List.length_cons, interpGo, if_pos rfl]
    rw [hE]
    dsimp only
    rw [if_neg (by omega : ¬ ret > 0)]
    rw [interpGo_fuel_congr (s.length + 1) (rest.length + 1) rest (by omega) (by omega)]
    simp
  · intro b s hb hbe hbi
    simp [ReadAndInterpretStatusByte, interpGo, hb, hbe, hbi]

/-- C5 witness: the amended theorem applied to the concrete failing decode
`['R', 'S']` (the decode of `['S']` returns `0`) and to the concrete
unrecognized framing byte `7`. -/
theorem c5_amended_witness :
    (ReadAndInterpretStatusByte [kTestRunnerTestPartResult, 83] = ReadAndInterpretStatusByte []) ∧
    (ReadAndInterpretStatusByte [7]).term = .unexpectedByte 7 :=
  ⟨c5_amended.2.1 [83] 0 none [] (by decide) (by decide),
   (c5_amended.2.2 7 [] (by decide) (by decide) (by decide)).1⟩

/-- C10: `SafeRead` never returns `-1` despite its documented contract
("Returns -1 in case of error"): it returns the total accumulated before
the first terminating read — any run of `EINTR` retries followed by one
successful read of `k` bytes yields exactly `k` (so a single partial read
ends the loop and a short count carries no error indication, regardless of
what the oracle would have provided afterwards), and a run of `EINTR`
retries ending in a non-EINTR failure yields the bytes accumulated so far
(`0`, since a successful read exits the loop immediately). -/
theorem c10_saferead_behaviour (events : List ReadOutcome) (n m k : Nat)
    (rest : List ReadOutcome) :
    SafeRead events n ≠ some (-1) ∧
    0 ≤ (SafeRead events n).getD 0 ∧
    SafeRead (List.replicate m .intr ++ .bytes k :: rest) n = some k ∧
    SafeRead (List.replicate m .intr ++ .fail :: rest) n = some 0 := by
  obtain ⟨hne, hnn⟩ := safeReadGo_nonneg events 0 n le_rfl
  refine ⟨hne, hnn, ?_, ?_⟩
  · rw [SafeRead, safeReadGo_intr_skip]
    by_cases hk : k > 0
    · simp [SafeReadGo, hk]
    · simp [SafeReadGo, hk]
      omega
  · rw [SafeRead, safeReadGo_intr_skip]
    rfl

/-- A part result whose message is the empty string (present, not NULL). -/
def emptyMessageResult : TestPartResult :=
  { type := .kSuccess, file_name := some [97], line_number := 0, message := some [] }

/-- C2 counterexample: the claim states that serializing and then
deserializing any `PartResult` — absent fields included — reproduces it
exactly.  A present-but-empty message already fails: on decode, the
zero-length string read returns `0`, which the decoder treats as
end-of-stream, so the decode fails and the round trip does not reproduce
the value.  Moreover an absent (NULL) filename cannot be serialized at
all, since `SerializeTestPartResult` would run `strlen(NULL)`. -/
theorem c2_roundtrip_counterexample :
    roundTrip emptyMessageResult = none ∧
    emptyMessageResult.message = some [] ∧
    SerializeTestPartResult
      { type := .kSuccess, file_name := none, line_number := 0, message := some [97] } = none := by
  decide

/-- C2 (amended): the round trip holds exactly for part results both of
whose strings are present, non-empty and NUL-free (of 32-bit
representable length) and whose line number fits a signed 32-bit `int`:
serialization succeeds, and deserializing the produced bytes — with any
trailing stream content — returns success (`1`), reconstructs precisely
the original type, filename, line number and message (tag bytes
`'R'`/`'N'`/`'F'` inside the message included, since the encoding is
length-prefixed), and consumes exactly the serialized bytes. -/
theorem c2_amended_roundtrip (ty : TPRType) (fn msg extra : List UInt8) (line : Int)
    (hfn : fn ≠ []) (hfnN : ∀ b ∈ fn, b ≠ 0) (hfnL : fn.length < 2 ^ 32)
    (hmsg : msg ≠ []) (hmsgN : ∀ b ∈ msg, b ≠ 0) (hmsgL : msg.length < 2 ^ 32)
    (hlo : -(2 ^ 31) ≤ line) (hhi : line < 2 ^ 31) :
    SerializeTestPartResult
        { type := ty, file_name := some fn, line_number := line, message := some msg } =
      some (typeByte ty ++ SerializeString fn ++ int32ToLE line ++ SerializeString msg) ∧
    ExtractTestPartResultFromStream
        ((typeByte ty ++ SerializeString fn ++ int32ToLE line ++ SerializeString msg) ++ extra) =
      .res 1 (some { type := ty, file_name := some fn, line_number := line,
                     message := some msg }) extra ∧
    roundTrip { type := ty, file_name := some fn, line_number := line, message := some msg } =
      some { type := ty, file_name := some fn, line_number := line, message := some msg } := by
  have h2 := extract_serialize_roundtrip ty fn msg extra line
    hfn hfnN hfnL hmsg hmsgN hmsgL hlo hhi
  have h0 := extract_serialize_roundtrip ty fn msg [] line
    hfn hfnN hfnL hmsg hmsgN hmsgL hlo hhi
  rw [List.append_nil] at h0
  refine ⟨rfl, h2, ?_⟩
  unfold roundTrip SerializeTestPartResult
  dsimp only
  rw [h0]
  norm_num

/-- C2 witness: the amended round-trip theorem at a concrete part result
whose message consists of the tag bytes `'R'`, `'N'`, `'F'` and whose line
number is negative. -/
theorem c2_amended_roundtrip_witness :
    roundTrip { type := .kNonFatalFailure, file_name := some [97], line_number := -7,
                message := some [82, 78, 70] } =
      some { type := .kNonFatalFailure, file_name := some [97], line_number := -7,
             message := some [82, 78, 70] } :=
  (c2_amended_roundtrip .kNonFatalFailure [97] [82, 78, 70] [1] (-7)
    (by decide) (by decide) (by decide) (by decide) (by decide) (by decide)
    (by decide) (by decide)).2.2

/-- A concrete part result used to exercise the reporting path (its message
contains the tag bytes `'R'`, `'N'`, `'F'` as literal content). -/
def sampleReportResult : TestPartResult :=
  { type := .kSuccess, file_name := some [97], line_number := 3, message := some [82, 78, 70] }

/-- The channel bytes of one framed report of `sampleReportResult`. -/
def sampleReportFrame : List UInt8 :=
  kTestRunnerTestPartResult :: (SerializeTestPartResult sampleReportResult).getD []

/-- A full child-to-parent stream: one framed part result, then `Exited`. -/
def sampleReportStream : List UInt8 :=
  sampleReportFrame ++ [kTestRunnerExited]

/-- C3 counterexample: the claim states that the Executor blocks on an
acknowledgment byte for each message and that the Overseer writes one
acknowledgment byte per decoded message.  On the concrete report of
`sampleReportResult`, `ReportTestPartResult`'s complete channel activity
is a single write — it performs no read at all, so it cannot be waiting
for any acknowledgment — and the Overseer, which decodes exactly this one
message from the stream, writes nothing to the channel. -/
theorem c3_no_ack_counterexample :
    ReportTestPartResultOps 5 sampleReportResult = some [ChanOp.write sampleReportFrame] ∧
    ((ReportTestPartResultOps 5 sampleReportResult).getD []).all
      (fun op => !op.isRead) = true ∧
    (ReadAndInterpretStatusByte sampleReportStream).reported.length = 1 ∧
    (ReadAndInterpretStatusByte sampleReportStream).chanWrites = [] := by
  decide

/-- C3 (amended): there is no acknowledgment in the protocol.  Whenever
`ReportTestPartResult` runs to completion, its channel activity is exactly
one operation, a write of the framed message (never a read); and the
Overseer loop never writes to the channel on any input stream. -/
theorem c3_amended_no_ack :
    (∀ (wfd : Int) (r : TestPartResult) (ops : List ChanOp),
      ReportTestPartResultOps wfd r = some ops →
      ops.length = 1 ∧ ops.all (fun op => !op.isRead) = true ∧
      ops = [ChanOp.write (kTestRunnerTestPartResult ::
        (SerializeTestPartResult r).getD [])]) ∧
    (∀ s : List UInt8, (ReadAndInterpretStatusByte s).chanWrites = []) := by
  constructor
  · intro wfd r ops h
    unfold ReportTestPartResultOps at h
    split at h
    · simp at h
    · cases hS : SerializeTestPartResult r with
      | none =>
        rw [hS] at h
        simp at h
      | some payload =>
        rw [hS] at h
        dsimp only at h
        cases h
        simp [ChanOp.isRead]
  · intro s
    exact interpGo_chanWrites_nil _ s

/-- C3 witness: the amended theorem applied to the concrete report of
`sampleReportResult` over descriptor `5`. -/
theorem c3_amended_no_ack_witness :
    [ChanOp.write sampleReportFrame].length = 1 ∧
    ([ChanOp.write sampleReportFrame]).all (fun op => !op.isRead) = true ∧
    [ChanOp.write sampleReportFrame] =
      [ChanOp.write (kTestRunnerTestPartResult ::
        (SerializeTestPartResult sampleReportResult).getD [])] :=
  c3_amended_no_ack.1 5 sampleReportResult [ChanOp.write sampleReportFrame] (by decide)

/-- C6 counterexample: the claim states that whenever the internal
test-runner flag is present, `AssumeRole` returns `EXECUTE_TEST` bound to
the flag's write end without creating a pipe or spawning a child,
regardless of the selected runner style.  With the `"fast"` style
(`NoExecTestRunner`) and the flag present, `AssumeRole` still creates a
pipe and forks, and in the parent it returns `OVERSEE_TEST`: the function
never consults the flag. -/
theorem c6_noexec_ignores_flag_counterexample :
    (NoExecAssumeRole (some { write_fd := 7 })
        { pipeRead := 3, pipeWrite := 4, inChild := false }).role = .OVERSEE_TEST ∧
    (NoExecAssumeRole (some { write_fd := 7 })
        { pipeRead := 3, pipeWrite := 4, inChild := false }).pipesCreated = 1 ∧
    (NoExecAssumeRole (some { write_fd := 7 })
        { pipeRead := 3, pipeWrite := 4, inChild := false }).childrenSpawned = 1 := by
  decide

/-- C6 (amended): the restart-style `ExecTestRunner::AssumeRole` does
behave as claimed — with the flag present it returns `EXECUTE_TEST` bound
to the flag's write descriptor, creating no pipe and spawning no child —
but the fast-style `NoExecTestRunner::AssumeRole` ignores the flag
entirely and always creates one pipe and forks one child, so the
behaviour is not independent of the selected runner style. -/
theorem c6_amended_flag_short_circuit (f : InternalTestRunnerFlag)
    (fl : Option InternalTestRunnerFlag) (env : SpawnEnv) :
    (ExecAssumeRole (some f) env).role = .EXECUTE_TEST ∧
    (ExecAssumeRole (some f) env).state.write_fd = f.write_fd ∧
    (ExecAssumeRole (some f) env).pipesCreated = 0 ∧
    (ExecAssumeRole (some f) env).childrenSpawned = 0 ∧
    (NoExecAssumeRole fl env).pipesCreated = 1 ∧
    (NoExecAssumeRole fl env).childrenSpawned = 1 := by
  unfold ExecAssumeRole NoExecAssumeRole
  by_cases h : env.inChild <;> simp [h]

/-- C7 counterexample: the claim states that for every runner variant the
Executor's `TearDown` sends the `Exited` byte and then terminates the
process (exiting 0) without returning to its caller.  `ExecTestRunner`
has no `TearDown` override: it inherits `TestRunnerImpl::TearDown`, which
sends the byte and returns (`exitStatus = none`), so the exec-style
Executor's `TearDown` does return control to its caller. -/
theorem c7_exec_teardown_returns_counterexample :
    ExecTestRunnerTearDown.writes = [[kTestRunnerExited]] ∧
    ExecTestRunnerTearDown.exitStatus = none := by
  decide

/-- C7 (amended): `NoExecTestRunner::TearDown` sends the `Exited` byte and
then terminates the process with exit status 0 without returning; the base
`TestRunnerImpl::TearDown` — which `ExecTestRunner` and
`WindowsTestRunner` inherit unchanged — only sends the `Exited` byte and
returns to its caller. -/
theorem c7_amended_teardown :
    NoExecTestRunnerTearDown.writes = [[kTestRunnerExited]] ∧
    NoExecTestRunnerTearDown.exitStatus = some 0 ∧
    TestRunnerImplTearDown.writes = [[kTestRunnerExited]] ∧
    TestRunnerImplTearDown.exitStatus = none ∧
    ExecTestRunnerTearDown = TestRunnerImplTearDown ∧
    WindowsTestRunnerTearDown = TestRunnerImplTearDown := by
  decide

/-- C9: descriptor discipline of the fork-based `AssumeRole`
implementations: the fast-style child closes the pipe's read end and keeps
`write_fd = pipe_fd[1]`; the fast-style parent closes the write end and
keeps `read_fd = pipe_fd[0]`; the exec-style parent (the only process
that returns from `ExecTestRunner::AssumeRole` after spawning) closes the
write end and keeps `read_fd = pipe_fd[0]`; in no returning process are
the Overseer's read end and the Executor's write end both open. -/
theorem c9_fd_discipline (fl : Option InternalTestRunnerFlag) (pr pw : Int) :
    (NoExecAssumeRole fl { pipeRead := pr, pipeWrite := pw, inChild := true }).readEndOpen
        = false ∧
    (NoExecAssumeRole fl { pipeRead := pr, pipeWrite := pw, inChild := true }).state.write_fd
        = pw ∧
    (NoExecAssumeRole fl { pipeRead := pr, pipeWrite := pw, inChild := true }).role
        = .EXECUTE_TEST ∧
    (NoExecAssumeRole fl { pipeRead := pr, pipeWrite := pw, inChild := false }).writeEndOpen
        = false ∧
    (NoExecAssumeRole fl { pipeRead := pr, pipeWrite := pw, inChild := false }).state.read_fd
        = pr ∧
    (NoExecAssumeRole fl { pipeRead := pr, pipeWrite := pw, inChild := false }).role
        = .OVERSEE_TEST ∧
    (ExecAssumeRole none { pipeRead := pr, pipeWrite := pw, inChild := false }).writeEndOpen
        = false ∧
    (ExecAssumeRole none { pipeRead := pr, pipeWrite := pw, inChild := false }).state.read_fd
        = pr ∧
    ((NoExecAssumeRole fl { pipeRead := pr, pipeWrite := pw, inChild := true }).readEndOpen &&
      (NoExecAssumeRole fl { pipeRead := pr, pipeWrite := pw, inChild := true }).writeEndOpen)
        = false ∧
    ((NoExecAssumeRole fl { pipeRead := pr, pipeWrite := pw, inChild := false }).readEndOpen &&
      (NoExecAssumeRole fl { pipeRead := pr, pipeWrite := pw, inChild := false }).writeEndOpen)
        = false ∧
    ((ExecAssumeRole none { pipeRead := pr, pipeWrite := pw, inChild := false }).readEndOpen &&
      (ExecAssumeRole none { pipeRead := pr, pipeWrite := pw, inChild := false }).writeEndOpen)
        = false := by
  simp [NoExecAssumeRole, ExecAssumeRole]

/-- C8 counterexample: the claim states that an invalid test-runner style
selector makes creating the test runner fail fatally with a descriptive
diagnostic.  On the concrete invalid style `"slow"`,
`DefaultTestRunnerFactory::Create` just returns `false` — emitting no
diagnostic and aborting nothing (the source marks the spot
`TODO (dmeister): Error handling here`). -/
theorem c8_create_silent_counterexample :
    DefaultTestRunnerFactoryCreate "slow" = .failedSilently := by
  decide

/-- C8 (amended): an empty internal test-runner flag yields no flag object
and is not an error; a malformed non-empty flag — a field count other than
two after splitting on the separator, or an unparseable descriptor field —
makes `ParseInternalTestRunnerFlag` abort with the descriptive bad-flag
diagnostic, and a well-formed one yields the flag object; but an invalid
style selector merely makes `DefaultTestRunnerFactory::Create` return
`false` with no diagnostic at all. -/
theorem c8_amended_config_faults :
    (ParseInternalTestRunnerFlag [] = .noFlag) ∧
    (∀ v : List Char, v ≠ [] → (splitOnChar '|' v).length ≠ 2 →
      ParseInternalTestRunnerFlag v = .aborted (badFlagMessage v)) ∧
    (∀ (v : List Char) (h2 : (splitOnChar '|' v).length = 2), v ≠ [] →
      ParseNaturalNumber ((splitOnChar '|' v).get ⟨1, by omega⟩) = none →
      ParseInternalTestRunnerFlag v = .aborted (badFlagMessage v)) ∧
    (∀ (v : List Char) (h2 : (splitOnChar '|' v).length = 2) (n : Int), v ≠ [] →
      ParseNaturalNumber ((splitOnChar '|' v).get ⟨1, by omega⟩) = some n →
      ParseInternalTestRunnerFlag v = .flag n) ∧
    (∀ s : String, s ≠ "threadsafe" → s ≠ "fast" →
      DefaultTestRunnerFactoryCreate s = .failedSilently) := by
  refine ⟨rfl, ?_, ?_, ?_, ?_⟩
  · intro v hne h2
    unfold ParseInternalTestRunnerFlag
    rw [if_neg hne, dif_neg h2]
  · intro v h2 hne hp
    unfold ParseInternalTestRunnerFlag
    rw [if_neg hne, dif_pos h2, hp]
  · intro v h2 n hne hp
    unfold ParseInternalTestRunnerFlag
    rw [if_neg hne, dif_pos h2, hp]
  · intro s h1 h2
    unfold DefaultTestRunnerFactoryCreate
    rw [if_neg h1, if_neg h2]

/-- C8 witness: the amended theorem at the concrete flag values `"abc"`
(one field), `"x|y"` (unparseable descriptor), `"x|9"` (well-formed) and
at the concrete invalid style `"slowest"`. -/
theorem c8_amended_config_faults_witness :
    ParseInternalTestRunnerFlag "abc".toList = .aborted (badFlagMessage "abc".toList) ∧
    ParseInternalTestRunnerFlag "x|y".toList = .aborted (badFlagMessage "x|y".toList) ∧
    ParseInternalTestRunnerFlag "x|9".toList = .flag 9 ∧
    DefaultTestRunnerFactoryCreate "slowest" = .failedSilently :=
  ⟨c8_amended_config_faults.2.1 "abc".toList (by decide) (by decide),
   c8_amended_config_faults.2.2.1 "x|y".toList (by decide) (by decide) (by decide),
   c8_amended_config_faults.2.2.2.1 "x|9".toList (by decide) 9 (by decide) (by decide),
   c8_amended_config_faults.2.2.2.2 "slowest" (by decide) (by decide)⟩
